import Mathlib

/-
Shallow embedding of the BioAccessLabs end-to-end test harness.

The browser driver, faker randomness and the real file system are external
capabilities; they enter the model as explicit parameters (choice functions,
success flags) or as an explicit file-system map.  Everything below is
translated from the TypeScript sources:
  src/src/fixtures/authFixture.ts
  src/src/fixtures/testFixture.ts
  src/src/pages/basePage.ts
  src/src/config/environment.config.ts
  src/src/utils/testDataManager.ts
-/

namespace BioAccessLabs

/-- Roles recognised by the harness (authFixture.ts `type AuthRole`). -/
inductive AuthRole
  | user
  | admin
  | guest
deriving DecidableEq, Repr

/-- The literal string value of a role (the TS union is of string literals). -/
def roleString : AuthRole → String
  | .user => "user"
  | .admin => "admin"
  | .guest => "guest"

/-- Path of the user snapshot file (authFixture.ts `AUTH_FILE_USER`). -/
def AUTH_FILE_USER : String := ".auth/user.json"

/-- Path of the admin snapshot file (authFixture.ts `AUTH_FILE_ADMIN`). -/
def AUTH_FILE_ADMIN : String := ".auth/admin.json"

/-- File choice made by `authenticatedContext` and `clearAuthState`:
`authRole === 'admin' ? AUTH_FILE_ADMIN : AUTH_FILE_USER` — every role other
than `admin` (in particular `guest`) falls through to the user file. -/
def authFilePath (role : AuthRole) : String :=
  match role with
  | .admin => AUTH_FILE_ADMIN
  | _ => AUTH_FILE_USER

/-- File system model: a map from paths to the mtime (in ms) of the snapshot
stored there, `none` when no file exists.  Snapshot contents are opaque to the
cache; only existence and mtime are inspected. -/
def FS := String → Option Nat

/-- Writing a snapshot at path `p` with mtime `t`
(`context.storageState({path})` / `fs.writeFileSync`). -/
def FS.write (fs : FS) (p : String) (t : Nat) : FS :=
  fun q => if q = p then some t else fs q

/-- authFixture.ts `clearAuthFile`: unlink only when the file exists
(absent file is not an error). -/
def clearAuthFile (fs : FS) (p : String) : FS :=
  if (fs p).isSome then (fun q => if q = p then none else fs q) else fs

/-- authFixture.ts `AuthHelper.clearAuthState role`. -/
def clearAuthState (fs : FS) (role : AuthRole) : FS :=
  clearAuthFile fs (authFilePath role)

/-- Default max age of a snapshot: 24 hours in milliseconds
(authFixture.ts `isAuthFileValid` default parameter). -/
def defaultMaxAge : Nat := 24 * 60 * 60 * 1000

/-- authFixture.ts `isAuthFileValid`: the file must exist and its age
(`Date.now() - stats.mtimeMs`) must be below `maxAge`. -/
def isAuthFileValid (fs : FS) (now : Nat) (filePath : String) (maxAge : Nat) : Bool :=
  match fs filePath with
  | none => false
  | some mtime => now - mtime < maxAge

/-- Errors thrown during session acquisition. -/
inductive AuthError
  | loginFailed
deriving DecidableEq, Repr

/-- Whether the fixture body ran to completion or threw. -/
inductive SetupResult
  | completed
  | threw (e : AuthError)
deriving DecidableEq, Repr

/-- Observable outcome of one session acquisition: whether it threw, the file
system afterwards, how many login flows were driven, and which snapshot file
(if any) was loaded into the fresh browser context. -/
structure AcquireOutcome where
  result : SetupResult
  fs : FS
  loginFlows : Nat
  reusedSnapshot : Option String

/-- authFixture.ts `authenticatedContext` setup (lines 80-117).  The gate is
`isAuthFileValid authFile`; on the slow path the login flow runs and only a
fully successful flow (navigation, form fill, post-login URL change within
10 s) reaches `context.storageState({path: authFile})`, which stamps the file
with the current time.  A failed flow rethrows from the catch block with the
file system untouched.  `loginOk` abstracts the external driver + identity
provider verdict on the flow. -/
def authenticatedContextSetup (fs : FS) (now : Nat) (role : AuthRole)
    (loginOk : Bool) : AcquireOutcome :=
  let authFile := authFilePath role
  if isAuthFileValid fs now authFile defaultMaxAge then
    ⟨.completed, fs, 0, some authFile⟩
  else if loginOk then
    ⟨.completed, fs.write authFile now, 1, none⟩
  else
    ⟨.threw .loginFailed, fs, 1, none⟩

/-- testFixture.ts `authenticatedPage` / `authenticatedContext` setup
(lines 135-202).  The gate is `fs.existsSync(authFile)` alone — no age check —
and the file is fixed to `.auth/user.json`. -/
def testFixtureAuthSetup (fs : FS) (now : Nat) (loginOk : Bool) : AcquireOutcome :=
  if (fs AUTH_FILE_USER).isSome then
    ⟨.completed, fs, 0, some AUTH_FILE_USER⟩
  else if loginOk then
    ⟨.completed, fs.write AUTH_FILE_USER now, 1, none⟩
  else
    ⟨.threw .loginFailed, fs, 1, none⟩

/-- Playwright test statuses relevant to `testInfo.status`/`expectedStatus`. -/
inductive TestStatus
  | passed
  | failed
  | timedOut
  | skipped
deriving DecidableEq, Repr

/-- Outcome of the page-fixture teardown: either it finished (recording
whether a screenshot was attached to the report) or it threw. -/
inductive TeardownOutcome
  | finishedTeardown (screenshotAttached : Bool)
  | threwDuringCapture
deriving DecidableEq, Repr

/-- testFixture.ts `page` fixture teardown (lines 63-82): after the test body,
if `testInfo.status !== testInfo.expectedStatus` the code awaits
`page.screenshot` and `testInfo.attach` with no try/catch around either call,
so a rejection from either one propagates out of the fixture.
`screenshotOk` / `attachOk` abstract whether those external driver calls
succeed. -/
def pageFixtureTeardown (status expectedStatus : TestStatus)
    (screenshotOk attachOk : Bool) : TeardownOutcome :=
  if status ≠ expectedStatus then
    if screenshotOk then
      if attachOk then .finishedTeardown true else .threwDuringCapture
    else .threwDuringCapture
  else .finishedTeardown false

/-- Timeout passed to the network-idle wait inside `waitForPageLoad`
(basePage.ts line 164). -/
def NETWORKIDLE_TIMEOUT : Nat := 5000

/-- Resolution time of `waitForLoadState('networkidle', {timeout: 5000})`
followed by `.catch(() => {})`: if the page reaches network idle at `t`
(`none` meaning a stalled request keeps it busy forever), the promise settles
at `t` when `t` is within the budget, otherwise at the 5000 ms deadline — the
`catch` turns the timeout rejection into an ordinary resolution. -/
def networkIdleWaitTime (netIdle : Option Nat) : Nat :=
  match netIdle with
  | none => NETWORKIDLE_TIMEOUT
  | some t => min t NETWORKIDLE_TIMEOUT

/-- Settle time of the `Promise.race` step inside `waitForPageLoad`
(basePage.ts lines 162-165): the race of the DOM-content-loaded wait and the
bounded network-idle wait settles at the earlier of the two times. -/
def waitForPageLoadRaceTime (domReady : Nat) (netIdle : Option Nat) : Nat :=
  min domReady (networkIdleWaitTime netIdle)

/-- Default timeout of `waitForLoadingToComplete` (basePage.ts line 176). -/
def LOADING_SPINNER_TIMEOUT : Nat := 10000

/-- Duration of basePage.ts `waitForLoadingToComplete` (lines 176-183):
`loadingSpinner.waitFor({state: 'hidden', timeout: 10000})` inside a
try/catch whose catch swallows the timeout error.  `spinnerHidden` is the
time (from the start of this wait) at which the spinner becomes hidden,
`none` when it never does; the wait ends at that time or at the 10000 ms
deadline, whichever is earlier, and never throws. -/
def waitForLoadingToCompleteTime (spinnerHidden : Option Nat) : Nat :=
  match spinnerHidden with
  | none => LOADING_SPINNER_TIMEOUT
  | some s => min s LOADING_SPINNER_TIMEOUT

/-- Total duration of basePage.ts `waitForPageLoad` (lines 160-174): the
`Promise.race` step, then `await this.waitForLoadingToComplete()` (the debug
log that follows takes no time).  Everything sits in an outer try/catch that
logs and returns: the only statement that can reject is the race itself, and
only via its DOM-content-loaded branch (the network-idle branch has an inline
`.catch`, and the spinner wait swallows its own errors).  `domRejects` says
whether the DOM-content-loaded wait settles by rejecting (driver-level
navigation timeout, closed page) rather than resolving, at time `domReady`
either way: when such a rejection settles the race — strictly before the
bounded network-idle wait does — the outer catch ends the function right
there and the spinner wait is skipped; otherwise the race resolves and the
spinner wait follows. -/
def waitForPageLoadTime (domReady : Nat) (domRejects : Bool)
    (netIdle spinnerHidden : Option Nat) : Nat :=
  if domRejects ∧ domReady < networkIdleWaitTime netIdle then
    domReady
  else
    waitForPageLoadRaceTime domReady netIdle +
      waitForLoadingToCompleteTime spinnerHidden

/-- The network-idle wait never runs past its 5000 ms budget. -/
theorem networkIdleWaitTime_le (netIdle : Option Nat) :
    networkIdleWaitTime netIdle ≤ NETWORKIDLE_TIMEOUT := by
  unfold networkIdleWaitTime
  cases netIdle with
  | none => exact le_refl _
  | some t => exact Nat.min_le_right _ _

/-- Character pool `uppercase` of `generateStrongPassword` (testDataManager.ts). -/
def uppercaseChars : List Char := "ABCDEFGHIJKLMNOPQRSTUVWXYZ".toList

/-- Character pool `lowercase` of `generateStrongPassword`. -/
def lowercaseChars : List Char := "abcdefghijklmnopqrstuvwxyz".toList

/-- Character pool `numbers` of `generateStrongPassword`. -/
def numberChars : List Char := "0123456789".toList

/-- Character pool `special` of `generateStrongPassword`. -/
def specialChars : List Char := "!@#$%".toList

/-- Pool `all = uppercase + lowercase + numbers + special`. -/
def allChars : List Char := uppercaseChars ++ lowercaseChars ++ numberChars ++ specialChars

/-- One character draw `pool[Math.floor(Math.random() * pool.length)]`.  The
random draw is an arbitrary natural `r`; reducing it modulo the pool size
yields exactly the in-range indices `Math.floor` can produce. -/
def pick (cs : List Char) (r : Nat) : Char :=
  cs.getD (r % cs.length) '?'

/-- The password string built by `generateStrongPassword` before the final
shuffle: one draw from each required class, then draws from `all` for
positions 4 … length-1.  `r i` is the i-th `Math.random` draw. -/
def preShufflePassword (len : Nat) (r : Nat → Nat) : List Char :=
  [pick uppercaseChars (r 0), pick lowercaseChars (r 1),
   pick numberChars (r 2), pick specialChars (r 3)]
    ++ (List.range (len - 4)).map (fun i => pick allChars (r (i + 4)))

/-- One step of `Array.prototype.sort` with comparator `cmp`, modelled as the
insertion step of a comparison sort: with an inconsistent random comparator
the ECMAScript result order is implementation-defined, but any comparison
sort only rearranges its input. -/
def insertRand (cmp : Char → Char → Bool) (a : Char) : List Char → List Char
  | [] => [a]
  | b :: l => if cmp a b then a :: b :: l else b :: insertRand cmp a l

/-- The shuffle `password.split('').sort(() => Math.random() - 0.5)`,
modelled as a comparison sort driven by an arbitrary comparator `cmp`
(the random draws the comparator makes are folded into `cmp`). -/
def sortRand (cmp : Char → Char → Bool) : List Char → List Char
  | [] => []
  | a :: l => insertRand cmp a (sortRand cmp l)

/-- testDataManager.ts `generateStrongPassword(length)`: required-class draws,
filler draws, then the random shuffle, joined back into a string. -/
def generateStrongPassword (len : Nat) (r : Nat → Nat)
    (cmp : Char → Char → Bool) : String :=
  String.mk (sortRand cmp (preShufflePassword len r))

/-- testDataManager.ts `UserTestData` record. -/
structure UserTestData where
  email : String
  password : String
  confirmPassword : String
  firstName : String
  lastName : String
  displayName : String
  dob : String
  mobile : String
  gender : String
deriving DecidableEq, Repr

/-- testDataManager.ts `generateRandomUser`.  The faker-driven fields (email,
names, birth date, mobile, gender, display suffix) come from the external
faker library and enter as parameters.  The `password` and `confirmPassword`
fields are produced by two separate `generateStrongPassword()` invocations,
each consuming its own randomness (`rPw`/`cmpPw` versus `rCpw`/`cmpCpw`). -/
def generateRandomUser (email firstName lastName dob mobile gender : String)
    (displayNum : Nat) (rPw rCpw : Nat → Nat)
    (cmpPw cmpCpw : Char → Char → Bool) : UserTestData :=
  ⟨email,
   generateStrongPassword 12 rPw cmpPw,
   generateStrongPassword 12 rCpw cmpCpw,
   firstName, lastName,
   firstName ++ lastName ++ toString displayNum,
   dob, mobile, gender⟩

/-- JavaScript `s.slice(-n)`: for `n = 0` this is `s.slice(0)`, the whole
string; for `n > 0` it is the suffix of (up to) `n` characters. -/
def jsSliceFromEnd (s : String) (n : Nat) : String :=
  if n = 0 then s else String.mk (s.toList.drop (s.length - n))

/-- testDataManager.ts `maskSensitiveData(data, visibleChars)`: strings no
longer than `visibleChars` are returned unchanged; otherwise all but the last
`visibleChars` characters are replaced by `'*'`. -/
def maskSensitiveData (data : String) (visibleChars : Nat) : String :=
  if data.length ≤ visibleChars then data
  else String.mk (List.replicate (data.length - visibleChars) '*') ++
    jsSliceFromEnd data visibleChars

/-- Environment variables: a map from variable name to its value,
`none` when unset. -/
def Env := String → Option String

/-- JavaScript `role.toUpperCase()` on the ASCII role strings. -/
def jsToUpperCase (s : String) : String :=
  String.mk (s.toList.map Char.toUpper)

/-- Credential pair returned by `getCredentials`. -/
structure Credentials where
  email : String
  password : String
deriving DecidableEq, Repr

/-- Name of the `<ROLE>_EMAIL` variable consulted for a role. -/
def credEmailVar (role : AuthRole) : String :=
  jsToUpperCase (roleString role) ++ "_EMAIL"

/-- Name of the `<ROLE>_PASSWORD` variable consulted for a role. -/
def credPasswordVar (role : AuthRole) : String :=
  jsToUpperCase (roleString role) ++ "_PASSWORD"

/-- environment.config.ts `getCredentials(role)`: look up
`process.env[role.toUpperCase() + '_EMAIL']` and the matching password
variable, defaulting each to the empty string (`|| ''`) when unset.  The
function is total: it never throws. -/
def getCredentials (env : Env) (role : AuthRole) : Credentials :=
  ⟨(env (credEmailVar role)).getD "",
   (env (credPasswordVar role)).getD ""⟩

/-! Helper lemmas shared by the claim theorems. -/

/-- A draw from a nonempty pool lands in the pool. -/
theorem pick_mem (cs : List Char) (r : Nat) (h : cs ≠ []) : pick cs r ∈ cs := by
  have hlen : 0 < cs.length := List.length_pos.mpr h
  have hlt : r % cs.length < cs.length := Nat.mod_lt _ hlen
  unfold pick
  rw [List.getD_eq_getElem?_getD, List.getElem?_eq_getElem hlt]
  exact List.getElem_mem hlt

/-- Inserting with an arbitrary comparator only rearranges. -/
theorem insertRand_perm (cmp : Char → Char → Bool) (a : Char) (l : List Char) :
    (insertRand cmp a l).Perm (a :: l) := by
  induction l with
  | nil => exact List.Perm.refl _
  | cons b l ih =>
    unfold insertRand
    by_cases h : cmp a b
    · simp [h]
    · simp only [h, Bool.false_eq_true, ite_false]
      exact (ih.cons b).trans (List.Perm.swap a b l)

/-- Sorting with an arbitrary (even inconsistent) comparator is a
permutation of the input: the shuffle adds and removes nothing. -/
theorem sortRand_perm (cmp : Char → Char → Bool) (l : List Char) :
    (sortRand cmp l).Perm l := by
  induction l with
  | nil => exact List.Perm.refl _
  | cons a l ih =>
    unfold sortRand
    exact (insertRand_perm cmp a (sortRand cmp l)).trans (ih.cons a)

/-- A file system holding one user snapshot written at time 0. -/
def staleUserFS : FS :=
  fun p => if p = AUTH_FILE_USER then some 0 else none

/-- A file system holding no snapshot at all. -/
def emptyFS : FS :=
  fun _ => none

/-- A sample environment with only the user credentials set. -/
def sampleEnv : Env :=
  fun v =>
    if v = "USER_EMAIL" then some "user@example.com"
    else if v = "USER_PASSWORD" then some "secret" else none

/-! Claim theorems. -/

/-- C1 counterexample: with the user snapshot written at time 0 and the clock
at twice the max age, the snapshot is stale (`isAuthFileValid` is false), yet
the testFixture.ts session acquisition — which gates on existence only —
performs zero login flows and reuses the stale snapshot unchanged.  This
refutes the claim that a snapshot older than max-age is never reused without
re-authenticating. -/
theorem testFixture_reuses_stale_snapshot :
    isAuthFileValid staleUserFS (2 * defaultMaxAge) AUTH_FILE_USER defaultMaxAge = false ∧
    (testFixtureAuthSetup staleUserFS (2 * defaultMaxAge) true).loginFlows = 0 ∧
    (testFixtureAuthSetup staleUserFS (2 * defaultMaxAge) true).reusedSnapshot =
      some AUTH_FILE_USER ∧
    (testFixtureAuthSetup staleUserFS (2 * defaultMaxAge) true).fs = staleUserFS := by
  have hb : testFixtureAuthSetup staleUserFS (2 * defaultMaxAge) true =
      ⟨.completed, staleUserFS, 0, some AUTH_FILE_USER⟩ := rfl
  exact ⟨by decide, by rw [hb], by rw [hb], by rw [hb]⟩

/-- C1 (amended): in the authFixture.ts acquisition path, which gates on
`isAuthFileValid`, a stale snapshot (age at least the max-age threshold)
forces exactly one login flow, and on success the snapshot file is
overwritten with the current time, which is strictly newer than the old
mtime.  The testFixture.ts path, by contrast, checks existence only (see the
counterexample). -/
theorem stale_snapshot_forces_relogin (fs : FS) (now : Nat) (role : AuthRole)
    (m : Nat) (hfile : fs (authFilePath role) = some m)
    (hstale : defaultMaxAge ≤ now - m) :
    (authenticatedContextSetup fs now role true).result = .completed ∧
    (authenticatedContextSetup fs now role true).loginFlows = 1 ∧
    (authenticatedContextSetup fs now role true).fs (authFilePath role) = some now ∧
    m < now := by
  have hvalid : isAuthFileValid fs now (authFilePath role) defaultMaxAge = false := by
    unfold isAuthFileValid
    rw [hfile]
    simp only [decide_eq_false_iff_not]
    omega
  have hb : authenticatedContextSetup fs now role true =
      ⟨.completed, fs.write (authFilePath role) now, 1, none⟩ := by
    unfold authenticatedContextSetup
    simp [hvalid]
  have hpos : 0 < defaultMaxAge := by decide
  have hm : m < now := by omega
  refine ⟨by rw [hb], by rw [hb], ?_, hm⟩
  rw [hb]
  unfold FS.write
  simp

/-- C1 witness: the amended theorem instantiated at the stale user snapshot. -/
theorem stale_snapshot_forces_relogin_witness :
    staleUserFS (authFilePath .user) = some 0 ∧
    defaultMaxAge ≤ 2 * defaultMaxAge - 0 ∧
    (authenticatedContextSetup staleUserFS (2 * defaultMaxAge) .user true).result =
      .completed ∧
    (authenticatedContextSetup staleUserFS (2 * defaultMaxAge) .user true).loginFlows = 1 ∧
    (authenticatedContextSetup staleUserFS (2 * defaultMaxAge) .user true).fs
      (authFilePath .user) = some (2 * defaultMaxAge) ∧
    0 < 2 * defaultMaxAge := by
  have h := stale_snapshot_forces_relogin staleUserFS (2 * defaultMaxAge) .user 0
    (by decide) (by omega)
  exact ⟨by decide, by omega, h.1, h.2.1, h.2.2.1, h.2.2.2⟩

/-- C2: when no valid snapshot exists and the login flow fails, the
authFixture.ts acquisition rethrows the error and the file system is left
exactly as it was — no snapshot is written or modified. -/
theorem login_failure_leaves_fs_unchanged (fs : FS) (now : Nat) (role : AuthRole)
    (hinvalid : isAuthFileValid fs now (authFilePath role) defaultMaxAge = false) :
    (authenticatedContextSetup fs now role false).result = .threw .loginFailed ∧
    (authenticatedContextSetup fs now role false).fs = fs := by
  have hb : authenticatedContextSetup fs now role false =
      ⟨.threw .loginFailed, fs, 1, none⟩ := by
    unfold authenticatedContextSetup
    simp [hinvalid]
  exact ⟨by rw [hb], by rw [hb]⟩

/-- C2 witness: a failed login on an empty file system throws and writes
nothing. -/
theorem login_failure_leaves_fs_unchanged_witness :
    isAuthFileValid emptyFS 0 (authFilePath .user) defaultMaxAge = false ∧
    (authenticatedContextSetup emptyFS 0 .user false).result = .threw .loginFailed ∧
    (authenticatedContextSetup emptyFS 0 .user false).fs = emptyFS := by
  have h := login_failure_leaves_fs_unchanged emptyFS 0 .user (by decide)
  exact ⟨by decide, h.1, h.2⟩

/-- C3 counterexample: `guest` and `user` are distinct roles, yet they map to
the same snapshot file, refuting the claim that any two distinct roles use
different files. -/
theorem guest_and_user_share_auth_file :
    AuthRole.guest ≠ AuthRole.user ∧
    authFilePath .guest = authFilePath .user := by
  exact ⟨by decide, rfl⟩

/-- C3 (amended): `user` and `admin` map to distinct snapshot files, but
`guest` shares the user file, so session acquisition and clearing for `guest`
operate on exactly the user's file. -/
theorem auth_file_role_mapping :
    authFilePath .user ≠ authFilePath .admin ∧
    authFilePath .guest = authFilePath .user ∧
    (∀ fs : FS, clearAuthState fs .guest = clearAuthState fs .user) ∧
    (∀ (fs : FS) (now : Nat) (loginOk : Bool),
      authenticatedContextSetup fs now .guest loginOk =
        authenticatedContextSetup fs now .user loginOk) := by
  exact ⟨by decide, rfl, fun fs => rfl, fun fs now loginOk => rfl⟩

/-- C4 counterexample: on an unexpected outcome, a failing screenshot call or
a failing attach call makes the page-fixture teardown itself throw — the
capture is not best-effort, refuting the claim that a capture error never
fails the test. -/
theorem screenshot_error_fails_teardown :
    pageFixtureTeardown .failed .passed false true = .threwDuringCapture ∧
    pageFixtureTeardown .failed .passed true false = .threwDuringCapture := by
  decide

/-- C4 (amended): when the test outcome differs from the expected outcome the
teardown captures a full-page screenshot and attaches it to the report, and
no capture happens on an expected outcome; but the capture is unguarded, so
an error while capturing or attaching propagates out of the fixture. -/
theorem failure_screenshot_capture (status expected : TestStatus)
    (hmismatch : status ≠ expected) :
    pageFixtureTeardown status expected true true = .finishedTeardown true ∧
    pageFixtureTeardown status expected false true = .threwDuringCapture ∧
    pageFixtureTeardown status expected true false = .threwDuringCapture ∧
    (∀ s : TestStatus, pageFixtureTeardown s s true true = .finishedTeardown false) := by
  refine ⟨?_, ?_, ?_, fun s => ?_⟩ <;> simp [pageFixtureTeardown, hmismatch]

/-- C4 witness: the amended theorem at a concrete unexpected failure. -/
theorem failure_screenshot_capture_witness :
    TestStatus.failed ≠ TestStatus.passed ∧
    pageFixtureTeardown .failed .passed true true = .finishedTeardown true := by
  have h := failure_screenshot_capture .failed .passed (by decide)
  exact ⟨by decide, h.1⟩

/-- C5 counterexample: with DOM-content-loaded at 1 ms, network idle at
100 ms, no rejection, and the spinner already hidden when checked, the whole
`waitForPageLoad` resolves at 1 ms — before the network-idle signal has
occurred, refuting the claim that the wait resolves only once both signals
have occurred. -/
theorem race_resolves_before_network_idle :
    waitForPageLoadTime 1 false (some 100) (some 0) = 1 ∧ (1 : Nat) < 100 := by
  decide

/-- C5 (amended): the `Promise.race` step of the load-complete wait settles
at the earlier of the DOM-ready signal and the network-idle wait (itself
capped at 5000 ms by the swallowed timeout) — so with the spinner already
hidden the whole wait resolves at the race time, possibly before network
idle.  The spinner wait that follows never exceeds its 10000 ms budget, and
the whole of `waitForPageLoad` — race, possible early exit through the outer
catch, then spinner wait — never exceeds 5000 + 10000 ms, so a single
stalled background request cannot hang the test. -/
theorem waitForPageLoad_bounds (domReady : Nat) (domRejects : Bool)
    (netIdle spinnerHidden : Option Nat) :
    waitForPageLoadRaceTime domReady netIdle ≤ domReady ∧
    waitForPageLoadRaceTime domReady netIdle ≤ NETWORKIDLE_TIMEOUT ∧
    (waitForPageLoadRaceTime domReady netIdle = domReady ∨
      waitForPageLoadRaceTime domReady netIdle = networkIdleWaitTime netIdle) ∧
    waitForLoadingToCompleteTime spinnerHidden ≤ LOADING_SPINNER_TIMEOUT ∧
    waitForPageLoadTime domReady false netIdle (some 0) =
      waitForPageLoadRaceTime domReady netIdle ∧
    waitForPageLoadTime domReady domRejects netIdle spinnerHidden ≤
      NETWORKIDLE_TIMEOUT + LOADING_SPINNER_TIMEOUT := by
  have hnw := networkIdleWaitTime_le netIdle
  have hspin : waitForLoadingToCompleteTime spinnerHidden ≤ LOADING_SPINNER_TIMEOUT := by
    unfold waitForLoadingToCompleteTime
    cases spinnerHidden with
    | none => exact le_refl _
    | some s => exact Nat.min_le_right _ _
  have hrace : waitForPageLoadRaceTime domReady netIdle ≤ NETWORKIDLE_TIMEOUT :=
    le_trans (Nat.min_le_right _ _) hnw
  refine ⟨Nat.min_le_left _ _, hrace, min_choice _ _, hspin, ?_, ?_⟩
  · unfold waitForPageLoadTime
    simp [waitForLoadingToCompleteTime]
  · unfold waitForPageLoadTime
    by_cases h : domRejects ∧ domReady < networkIdleWaitTime netIdle
    · rw [if_pos h]
      obtain ⟨hd, hlt⟩ := h
      omega
    · rw [if_neg h]
      have hr := hrace
      unfold waitForPageLoadRaceTime at hr
      omega

/-- C6: every password produced by `generateStrongPassword` with the default
length 12 — for any randomness and any shuffle comparator — is a permutation
of the pre-shuffle password (the shuffle adds and removes nothing), has
length exactly 12 (hence at least 12), and contains at least one character
from each required class even after shuffling. -/
theorem generated_password_policy (r : Nat → Nat) (cmp : Char → Char → Bool) :
    (generateStrongPassword 12 r cmp).toList.Perm (preShufflePassword 12 r) ∧
    (generateStrongPassword 12 r cmp).length = 12 ∧
    12 ≤ (generateStrongPassword 12 r cmp).length ∧
    (∃ c ∈ (generateStrongPassword 12 r cmp).toList, c ∈ uppercaseChars) ∧
    (∃ c ∈ (generateStrongPassword 12 r cmp).toList, c ∈ lowercaseChars) ∧
    (∃ c ∈ (generateStrongPassword 12 r cmp).toList, c ∈ numberChars) ∧
    (∃ c ∈ (generateStrongPassword 12 r cmp).toList, c ∈ specialChars) := by
  have hperm : (generateStrongPassword 12 r cmp).toList.Perm (preShufflePassword 12 r) :=
    sortRand_perm cmp (preShufflePassword 12 r)
  have hprelen : (preShufflePassword 12 r).length = 12 := by
    simp [preShufflePassword]
  have hlen : (generateStrongPassword 12 r cmp).length = 12 := by
    have := hperm.length_eq
    rw [hprelen] at this
    exact this
  have humem : pick uppercaseChars (r 0) ∈ preShufflePassword 12 r := by
    unfold preShufflePassword
    exact List.mem_append_left _ (List.mem_cons_self _ _)
  have hlmem : pick lowercaseChars (r 1) ∈ preShufflePassword 12 r := by
    unfold preShufflePassword
    exact List.mem_append_left _
      (List.mem_cons_of_mem _ (List.mem_cons_self _ _))
  have hnmem : pick numberChars (r 2) ∈ preShufflePassword 12 r := by
    unfold preShufflePassword
    exact List.mem_append_left _
      (List.mem_cons_of_mem _ (List.mem_cons_of_mem _ (List.mem_cons_self _ _)))
  have hsmem : pick specialChars (r 3) ∈ preShufflePassword 12 r := by
    unfold preShufflePassword
    exact List.mem_append_left _
      (List.mem_cons_of_mem _ (List.mem_cons_of_mem _
        (List.mem_cons_of_mem _ (List.mem_cons_self _ _))))
  refine ⟨hperm, hlen, le_of_eq hlen.symm, ?_, ?_, ?_, ?_⟩
  · exact ⟨pick uppercaseChars (r 0), hperm.mem_iff.mpr humem,
      pick_mem uppercaseChars (r 0) (by decide)⟩
  · exact ⟨pick lowercaseChars (r 1), hperm.mem_iff.mpr hlmem,
      pick_mem lowercaseChars (r 1) (by decide)⟩
  · exact ⟨pick numberChars (r 2), hperm.mem_iff.mpr hnmem,
      pick_mem numberChars (r 2) (by decide)⟩
  · exact ⟨pick specialChars (r 3), hperm.mem_iff.mpr hsmem,
      pick_mem specialChars (r 3) (by decide)⟩

/-- C7: `getCredentials` returns the empty string for an unset variable and,
when both variables are set, returns exactly their values; being a total
function, it never throws. -/
theorem getCredentials_env_lookup (env : Env) (role : AuthRole) :
    (env (credEmailVar role) = none → (getCredentials env role).email = "") ∧
    (env (credPasswordVar role) = none → (getCredentials env role).password = "") ∧
    (∀ e p, env (credEmailVar role) = some e → env (credPasswordVar role) = some p →
      getCredentials env role = ⟨e, p⟩) := by
  refine ⟨fun h => ?_, fun h => ?_, fun e p he hp => ?_⟩
  · simp [getCredentials, h]
  · simp [getCredentials, h]
  · simp [getCredentials, he, hp]

/-- C7 witness: the theorem at the sample environment, for the set `user`
variables and the unset `guest` variable. -/
theorem getCredentials_env_lookup_witness :
    sampleEnv (credEmailVar .user) = some "user@example.com" ∧
    sampleEnv (credPasswordVar .user) = some "secret" ∧
    getCredentials sampleEnv .user = ⟨"user@example.com", "secret"⟩ ∧
    sampleEnv (credEmailVar .guest) = none ∧
    (getCredentials sampleEnv .guest).email = "" := by
  have hu := getCredentials_env_lookup sampleEnv .user
  have hg := getCredentials_env_lookup sampleEnv .guest
  exact ⟨by decide, by decide, hu.2.2 _ _ (by decide) (by decide), by decide,
    hg.1 (by decide)⟩

/-- C8: `maskSensitiveData "secretvalue1234" 4` has the same length as the
input (15), ends in `1234`, and every one of the 11 preceding characters is
the mask character `'*'`. -/
theorem maskSensitiveData_example :
    maskSensitiveData "secretvalue1234" 4 = "***********1234" ∧
    (maskSensitiveData "secretvalue1234" 4).length = 15 ∧
    (maskSensitiveData "secretvalue1234" 4).toList.drop 11 = "1234".toList ∧
    ((maskSensitiveData "secretvalue1234" 4).toList.take 11).all
      (fun c => c = '*') = true := by
  decide

/-- C9: a string whose length is at most `visibleChars` is returned by
`maskSensitiveData` unchanged — fully unmasked. -/
theorem maskSensitiveData_short_input_unmasked (data : String) (visibleChars : Nat)
    (h : data.length ≤ visibleChars) :
    maskSensitiveData data visibleChars = data := by
  unfold maskSensitiveData
  simp [h]

/-- C9 witness: a three-character secret with four visible characters comes
back unmasked. -/
theorem maskSensitiveData_short_input_unmasked_witness :
    "abc".length ≤ 4 ∧ maskSensitiveData "abc" 4 = "abc" :=
  ⟨by decide, maskSensitiveData_short_input_unmasked "abc" 4 (by decide)⟩

/-- C10: `generateRandomUser` fills `password` and `confirmPassword` from two
separate `generateStrongPassword` invocations with their own randomness, and
for some randomness (exhibited concretely) the two fields differ — equality
is not guaranteed. -/
theorem confirmPassword_independent_generation :
    (∀ (email firstName lastName dob mobile gender : String) (displayNum : Nat)
        (rPw rCpw : Nat → Nat) (cmpPw cmpCpw : Char → Char → Bool),
      (generateRandomUser email firstName lastName dob mobile gender displayNum
          rPw rCpw cmpPw cmpCpw).password = generateStrongPassword 12 rPw cmpPw ∧
      (generateRandomUser email firstName lastName dob mobile gender displayNum
          rPw rCpw cmpPw cmpCpw).confirmPassword =
        generateStrongPassword 12 rCpw cmpCpw) ∧
    (generateRandomUser "" "" "" "" "" "" 0 (fun _ => 0) (fun _ => 1)
        (fun _ _ => false) (fun _ _ => false)).password ≠
      (generateRandomUser "" "" "" "" "" "" 0 (fun _ => 0) (fun _ => 1)
        (fun _ _ => false) (fun _ _ => false)).confirmPassword := by
  exact ⟨fun _ _ _ _ _ _ _ _ _ _ _ => ⟨rfl, rfl⟩, by decide⟩

end BioAccessLabs
